import Mathlib

/-!
Verification of the configuration resolution engine of the `trunk` CLI
(`src/config/models.rs`, `src/compression/mod.rs`), as a shallow embedding.

Machine types are embedded as follows: `PathBuf` becomes a record of an
absolute-flag and a component list (`join`/`parent`/`is_absolute` follow the
Rust `std::path` semantics used by the source); `Url` and raw strings become
`String`; `u16` becomes `Nat` (the environment coercion checks the `< 2^16`
bound); the `f32` field `ratio` of the compression options becomes `ℚ`.
Fallible operations return `Except ConfigError _`.  The filesystem and the
process environment are explicit parameters (`FS`, `Env`) so that `from_file`
/ `from_env` are pure functions of them.
-/

namespace Trunk

/-- Error taxonomy of the resolution engine (spec section 7): file read,
TOML parse, environment coercion, and path canonicalization failures. -/
inductive ConfigError where
  | fileRead
  | parse
  | envCoercion
  | pathResolution
deriving DecidableEq, Repr

/-- Embedding of Rust `PathBuf`: an absolute-flag plus path components. -/
structure PathBuf where
  absolute : Bool
  components : List String
deriving DecidableEq, Repr

/-- Rust `Path::join`: pushing an absolute path replaces the base wholesale,
a relative path is appended to the base's components. -/
def PathBuf.join (base p : PathBuf) : PathBuf :=
  if p.absolute then p else ⟨base.absolute, base.components ++ p.components⟩

/-- Rust `Path::parent`: drop the last component; `none` at a root/empty path. -/
def PathBuf.parent (p : PathBuf) : Option PathBuf :=
  match p.components with
  | [] => none
  | _ :: _ => some ⟨p.absolute, p.components.dropLast⟩

/-- `ConfigOptsBuild` (models.rs lines 14-28). -/
structure ConfigOptsBuild where
  target : Option PathBuf
  release : Bool
  dist : Option PathBuf
  public_url : Option String
deriving DecidableEq, Repr

/-- Rust `ConfigOptsBuild::default()`. -/
def ConfigOptsBuild.default : ConfigOptsBuild :=
  { target := none, release := false, dist := none, public_url := none }

/-- `ConfigOptsWatch` (models.rs lines 32-36). -/
structure ConfigOptsWatch where
  ignore : Option (List PathBuf)
deriving DecidableEq, Repr

/-- Rust `ConfigOptsWatch::default()`. -/
def ConfigOptsWatch.default : ConfigOptsWatch := { ignore := none }

/-- `ConfigOptsServe` (models.rs lines 40-57); `open` is a Lean keyword, the
field is embedded as `open_`. `Url` is embedded as `String`. -/
structure ConfigOptsServe where
  port : Option Nat
  open_ : Bool
  proxy_backend : Option String
  proxy_rewrite : Option String
deriving DecidableEq, Repr

/-- Rust `ConfigOptsServe::default()`. -/
def ConfigOptsServe.default : ConfigOptsServe :=
  { port := none, open_ := false, proxy_backend := none, proxy_rewrite := none }

/-- `ConfigOptsClean` (models.rs lines 61-69). -/
structure ConfigOptsClean where
  dist : Option PathBuf
  cargo : Bool
deriving DecidableEq, Repr

/-- Rust `ConfigOptsClean::default()`. -/
def ConfigOptsClean.default : ConfigOptsClean := { dist := none, cargo := false }

/-- `ConfigOptsProxy` (models.rs lines 77-86). -/
structure ConfigOptsProxy where
  backend : String
  rewrite : Option String
deriving DecidableEq, Repr

/-- `Compressor` (compression/mod.rs lines 8-18): the three accepted
compression algorithm tags. -/
inductive Compressor where
  | Gzip
  | Brotli
  | Zstd
deriving DecidableEq, Repr

/-- `CompressorOptions` (compression/mod.rs lines 21-24). -/
structure CompressorOptions where
  level : Option Nat
deriving DecidableEq, Repr

/-- `ConfigOptsCompression` (models.rs lines 425-451); the `f32` field
`ratio` is embedded as `ℚ`. -/
structure ConfigOptsCompression where
  algorithm : Compressor
  options : Option CompressorOptions
  test : Option String
  include_ : Option (List String)
  exclude : Option (List String)
  threshold : Option Nat
  ratio : Option ℚ
deriving DecidableEq, Repr

/-- `ConfigOpts` (models.rs lines 90-98), with the `compression`-feature
field present. -/
structure ConfigOpts where
  build : Option ConfigOptsBuild
  watch : Option ConfigOptsWatch
  serve : Option ConfigOptsServe
  clean : Option ConfigOptsClean
  proxy : Option (List ConfigOptsProxy)
  compression : Option (List ConfigOptsCompression)
deriving DecidableEq, Repr

/-- Rust `ConfigOpts::default()`: every section absent. -/
def ConfigOpts.default : ConfigOpts :=
  { build := none, watch := none, serve := none, clean := none,
    proxy := none, compression := none }

/-- Rust `Option::or`: `a.or(b)` keeps `a` when present, else `b`. -/
def optOr {α : Type} (a b : Option α) : Option α :=
  match a with
  | some v => some v
  | none => b

/-- `ConfigOpts::merge` (models.rs lines 348-408, the `compression`-feature
variant, which extends the lines 289-344 variant by the compression arm):
per-section merge where `greater` wins on scalar conflict, the sticky
booleans `release` / `open` / `cargo` cannot be disabled in the cascade, and
the list sections `proxy` / `compression` take the greater value wholesale. -/
def ConfigOpts.merge (lesser greater : ConfigOpts) : ConfigOpts :=
  { build :=
      match lesser.build, greater.build with
      | none, none => none
      | some val, none => some val
      | none, some val => some val
      | some l, some g =>
          some { target := optOr g.target l.target
                 dist := optOr g.dist l.dist
                 public_url := optOr g.public_url l.public_url
                 -- NOTE: this can not be disabled in the cascade.
                 release := if l.release then true else g.release }
    watch :=
      match lesser.watch, greater.watch with
      | none, none => none
      | some val, none => some val
      | none, some val => some val
      | some l, some g => some { ignore := optOr g.ignore l.ignore }
    serve :=
      match lesser.serve, greater.serve with
      | none, none => none
      | some val, none => some val
      | none, some val => some val
      | some l, some g =>
          some { proxy_backend := optOr g.proxy_backend l.proxy_backend
                 proxy_rewrite := optOr g.proxy_rewrite l.proxy_rewrite
                 port := optOr g.port l.port
                 -- NOTE: this can not be disabled in the cascade.
                 open_ := if l.open_ then true else g.open_ }
    clean :=
      match lesser.clean, greater.clean with
      | none, none => none
      | some val, none => some val
      | none, some val => some val
      | some l, some g =>
          some { dist := optOr g.dist l.dist
                 -- NOTE: this can not be disabled in the cascade.
                 cargo := if l.cargo then true else g.cargo }
    proxy :=
      match lesser.proxy, greater.proxy with
      | none, none => none
      | some val, none => some val
      | none, some val => some val
      | some _, some g => some g -- No meshing/merging. Only take the greater value.
    compression :=
      match lesser.compression, greater.compression with
      | none, none => none
      | some val, none => some val
      | none, some val => some val
      | some _, some g => some g }

/-- Abstract filesystem a resolution call runs against: existence test,
canonicalization (partial, as `canonicalize` can fail), and the combined
read-and-TOML-parse of a config file (read failures surface as
`ConfigError.fileRead`, parse failures as `ConfigError.parse`, chosen by the
filesystem instance). -/
structure FS where
  pathExists : PathBuf → Bool
  canonicalize : PathBuf → Option PathBuf
  readParse : PathBuf → Except ConfigError ConfigOpts

/-- The default config file location, `"Trunk.toml"` in the current
directory (a relative single-component path). -/
def trunkToml : PathBuf := ⟨false, ["Trunk.toml"]⟩

/-- The in-place path rewriting of `ConfigOpts::from_file`
(models.rs lines 238-267): for each present relative path-valued field of
the `build`, `watch` and `clean` sections, rewrite it as `parent.join(path)`;
absolute paths and absent fields are untouched. -/
def normalizePaths (parent : PathBuf) (cfg : ConfigOpts) : ConfigOpts :=
  { cfg with
    build := cfg.build.map (fun b =>
      { b with
        target := b.target.map (fun t =>
          if t.absolute then t else parent.join t)
        dist := b.dist.map (fun d =>
          if d.absolute then d else parent.join d) })
    watch := cfg.watch.map (fun w =>
      { w with
        ignore := w.ignore.map (List.map (fun p =>
          if p.absolute then p else parent.join p)) })
    clean := cfg.clean.map (fun c =>
      { c with
        dist := c.dist.map (fun d =>
          if d.absolute then d else parent.join d) }) }

/-- `ConfigOpts::from_file` (models.rs lines 226-269): default the path to
`Trunk.toml`; a non-existent path returns the all-default config (success);
otherwise canonicalize a relative path (failure is
`ConfigError.pathResolution`), read and parse the file, and normalize the
path-valued fields against the file's parent directory. -/
def ConfigOpts.from_file (fs : FS) (path0 : Option PathBuf) :
    Except ConfigError ConfigOpts :=
  let path := path0.getD trunkToml
  if fs.pathExists path = false then
    .ok ConfigOpts.default
  else do
    let path ←
      if path.absolute then pure path
      else
        match fs.canonicalize path with
        | some p => pure p
        | none => .error ConfigError.pathResolution
    let cfg ← fs.readParse path
    match path.parent with
    | some par => pure (normalizePaths par cfg)
    | none => pure cfg

/-- The raw process environment as the environment layer sees it: the
optional string value of each recognized `TRUNK_*` variable
(models.rs lines 272-275; one `envy` prefix per subcommand, one variable per
field of the corresponding options struct). -/
structure Env where
  build_target : Option String
  build_release : Option String
  build_dist : Option String
  build_public_url : Option String
  watch_ignore : Option String
  serve_port : Option String
  serve_open : Option String
  serve_proxy_backend : Option String
  serve_proxy_rewrite : Option String
  clean_dist : Option String
  clean_cargo : Option String
deriving DecidableEq, Repr

/-- The environment with no recognized variable set. -/
def Env.empty : Env :=
  { build_target := none, build_release := none, build_dist := none,
    build_public_url := none, watch_ignore := none, serve_port := none,
    serve_open := none, serve_proxy_backend := none,
    serve_proxy_rewrite := none, clean_dist := none, clean_cargo := none }

/-- `envy` string-to-`PathBuf` coercion (total): a leading `/` marks an
absolute path, the rest is split into components. -/
def pathOfString (s : String) : PathBuf :=
  if s.startsWith "/" then ⟨true, (s.drop 1).splitOn "/"⟩
  else ⟨false, s.splitOn "/"⟩

/-- `envy` coercion of a `#[serde(default)] bool` field: a missing variable
yields `false`, `"true"`/`"false"` coerce, anything else is an
`EnvCoercionError`. -/
def coerceBool (v : Option String) : Except ConfigError Bool :=
  match v with
  | none => .ok false
  | some "true" => .ok true
  | some "false" => .ok false
  | some _ => .error ConfigError.envCoercion

/-- `envy` coercion of an `Option<PathBuf>` field (never fails). -/
def coerceOptPath (v : Option String) : Except ConfigError (Option PathBuf) :=
  .ok (v.map pathOfString)

/-- `envy` coercion of an `Option<String>` field (never fails). -/
def coerceOptString (v : Option String) : Except ConfigError (Option String) :=
  .ok v

/-- `envy` coercion of an `Option<u16>` field: must be a decimal number
below `2^16`. -/
def coerceOptU16 (v : Option String) : Except ConfigError (Option Nat) :=
  match v with
  | none => .ok none
  | some s =>
      match s.toNat? with
      | some n => if n < 65536 then .ok (some n) else .error ConfigError.envCoercion
      | none => .error ConfigError.envCoercion

/-- `envy` coercion of an `Option<Url>` field; `Url::parse` is external to
the repository and is embedded as requiring a `"://"` scheme separator. -/
def coerceOptUrl (v : Option String) : Except ConfigError (Option String) :=
  match v with
  | none => .ok none
  | some s =>
      if (s.splitOn "://").length ≥ 2 then .ok (some s)
      else .error ConfigError.envCoercion

/-- `envy` coercion of an `Option<Vec<PathBuf>>` field: comma-separated
list of paths (never fails). -/
def coerceOptPathList (v : Option String) :
    Except ConfigError (Option (List PathBuf)) :=
  .ok (v.map (fun s => (s.splitOn ",").map pathOfString))

/-- `ConfigOpts::from_env` (models.rs lines 271-285): deserialize each
subcommand's options struct from its `TRUNK_<SECTION>_` variables; the four
sub-configs are always present in the result, `proxy` and `compression`
have no environment representation. -/
def ConfigOpts.from_env (e : Env) : Except ConfigError ConfigOpts := do
  let btarget ← coerceOptPath e.build_target
  let brelease ← coerceBool e.build_release
  let bdist ← coerceOptPath e.build_dist
  let bpublic ← coerceOptString e.build_public_url
  let wignore ← coerceOptPathList e.watch_ignore
  let sport ← coerceOptU16 e.serve_port
  let sopen ← coerceBool e.serve_open
  let sbackend ← coerceOptUrl e.serve_proxy_backend
  let srewrite ← coerceOptString e.serve_proxy_rewrite
  let cdist ← coerceOptPath e.clean_dist
  let ccargo ← coerceBool e.clean_cargo
  pure
    { build := some { target := btarget, release := brelease, dist := bdist,
                      public_url := bpublic }
      watch := some { ignore := wignore }
      serve := some { port := sport, open_ := sopen,
                      proxy_backend := sbackend, proxy_rewrite := srewrite }
      clean := some { dist := cdist, cargo := ccargo }
      proxy := none
      compression := none }

/-- `ConfigOpts::file_and_env_layers` (models.rs lines 215-220): the file
layer merged under the environment layer. -/
def ConfigOpts.file_and_env_layers (fs : FS) (e : Env)
    (path0 : Option PathBuf) : Except ConfigError ConfigOpts := do
  let toml_cfg ← ConfigOpts.from_file fs path0
  let env_cfg ← ConfigOpts.from_env e
  pure (ConfigOpts.merge toml_cfg env_cfg)

/-- `ConfigOpts::cli_opts_layer_build` (models.rs lines 146-163): merge a
CLI build layer (only the `build` section present) over the base layer. -/
def ConfigOpts.cli_opts_layer_build (cli : ConfigOptsBuild) (cfg_base : ConfigOpts) :
    ConfigOpts :=
  let opts : ConfigOptsBuild :=
    { target := cli.target, release := cli.release, dist := cli.dist,
      public_url := cli.public_url }
  let cfg_build : ConfigOpts :=
    { build := some opts, watch := none, serve := none, clean := none,
      proxy := none, compression := none }
  ConfigOpts.merge cfg_base cfg_build

/-- The build-options extraction of `ConfigOpts::rtc_build`
(models.rs lines 102-107): file-and-env base layer, CLI build layer over it,
then the `build` section defaulted when absent.  (The final `RtcBuild::new`
wrapper lives outside this repository's sources.) -/
def ConfigOpts.rtc_build_opts (cli_build : ConfigOptsBuild) (fs : FS) (e : Env)
    (config : Option PathBuf) : Except ConfigError ConfigOptsBuild := do
  let base_layer ← ConfigOpts.file_and_env_layers fs e config
  let build_layer := ConfigOpts.cli_opts_layer_build cli_build base_layer
  pure (build_layer.build.getD ConfigOptsBuild.default)

/-- A raw TOML `[[compression]]` table before shape checking: `algorithm`
is a raw optional string, the remaining fields carry their (already
well-typed) optional values. -/
structure RawCompression where
  algorithm : Option String
  options : Option CompressorOptions
  test : Option String
  include_ : Option (List String)
  exclude : Option (List String)
  threshold : Option Nat
  ratio : Option ℚ
deriving DecidableEq, Repr

/-- The serde deserializer of `Compressor` (compression/mod.rs lines 8-18):
only the renamed tags `"gzip"`, `"brotli"`, `"zstd"` are accepted. -/
def Compressor.deserialize (s : String) : Option Compressor :=
  if s = "gzip" then some Compressor.Gzip
  else if s = "brotli" then some Compressor.Brotli
  else if s = "zstd" then some Compressor.Zstd
  else none

/-- The serde-derived deserializer of `ConfigOptsCompression`
(models.rs lines 425-451): `algorithm` has no default and _must_ be present
and a valid `Compressor` tag; every other field is `#[serde(default)]`. -/
def parseCompression (r : RawCompression) :
    Except ConfigError ConfigOptsCompression :=
  match r with
  | ⟨alg0, opts, tst, incl, excl, thr, rat⟩ =>
    match alg0 with
    | none => .error ConfigError.parse
    | some s =>
        match Compressor.deserialize s with
        | none => .error ConfigError.parse
        | some a =>
            .ok { algorithm := a, options := opts, test := tst,
                  include_ := incl, exclude := excl, threshold := thr,
                  ratio := rat }

/-- Deserializing the whole `compression` array of tables: every entry must
parse, the first failure aborts the document parse. -/
def parseCompressionSection (rs : List RawCompression) :
    Except ConfigError (List ConfigOptsCompression) :=
  rs.mapM parseCompression

/-! ## Shared helper lemmas and example values -/

lemma optOr_self {α : Type} (a : Option α) : optOr a a = a := by
  cases a <;> rfl

lemma sticky_if_self (b : Bool) : (if b then true else b) = b := by
  cases b <;> rfl

lemma except_bind_ok {ε α β : Type} {x : Except ε α} {f : α → Except ε β} {c : β}
    (h : (x >>= f) = .ok c) : ∃ b, x = .ok b ∧ f b = .ok c := by
  cases x with
  | error e => simp [Bind.bind, Except.bind] at h
  | ok b => exact ⟨b, rfl, by simpa [Bind.bind, Except.bind] using h⟩

lemma except_ok_bind {ε α β : Type} (a : α) (f : α → Except ε β) :
    ((Except.ok a : Except ε α) >>= f) = f a := rfl

lemma except_pure_bind {ε α β : Type} (a : α) (f : α → Except ε β) :
    ((pure a : Except ε α) >>= f) = f a := rfl

/-- A layer whose build section has `release = true` and nothing else. -/
def exBuildTrue : ConfigOpts :=
  { ConfigOpts.default with
    build := some { ConfigOptsBuild.default with release := true } }

/-- A layer whose build section has `release = false` and nothing else. -/
def exBuildFalse : ConfigOpts :=
  { ConfigOpts.default with build := some ConfigOptsBuild.default }

/-- Proxy entry `A` of the spec's example. -/
def proxyA : ConfigOptsProxy := { backend := "http://a.example", rewrite := none }

/-- Proxy entry `B` of the spec's example. -/
def proxyB : ConfigOptsProxy := { backend := "http://b.example", rewrite := some "/api" }

/-- A layer carrying only `proxy = [A]`. -/
def exProxyA : ConfigOpts := { ConfigOpts.default with proxy := some [proxyA] }

/-- A layer carrying only `proxy = [B]`. -/
def exProxyB : ConfigOpts := { ConfigOpts.default with proxy := some [proxyB] }

/-! ## Claims about `ConfigOpts::merge` -/

/-- C1: Sticky booleans are monotonic under merge: whenever both layers have
the relevant section present and the lesser layer's sticky flag
(`build.release`, `serve.open`, `clean.cargo`) is `true`, the merged flag is
`true` regardless of the greater layer's value; in particular
`merge({release:true}, {release:false})` yields `release:true`. -/
theorem merge_sticky_monotonic :
    (∀ (l g : ConfigOpts) (lb gb : ConfigOptsBuild),
        l.build = some lb → g.build = some gb → lb.release = true →
        (ConfigOpts.merge l g).build.map ConfigOptsBuild.release = some true) ∧
    (∀ (l g : ConfigOpts) (ls gs : ConfigOptsServe),
        l.serve = some ls → g.serve = some gs → ls.open_ = true →
        (ConfigOpts.merge l g).serve.map ConfigOptsServe.open_ = some true) ∧
    (∀ (l g : ConfigOpts) (lc gc : ConfigOptsClean),
        l.clean = some lc → g.clean = some gc → lc.cargo = true →
        (ConfigOpts.merge l g).clean.map ConfigOptsClean.cargo = some true) ∧
    (ConfigOpts.merge exBuildTrue exBuildFalse).build
      = some { ConfigOptsBuild.default with release := true } := by
  refine ⟨?_, ?_, ?_, by decide⟩
  · intro l g lb gb hl hg hr
    simp only [ConfigOpts.merge, hl, hg, hr, if_true]
    rfl
  · intro l g ls gs hl hg hr
    simp only [ConfigOpts.merge, hl, hg, hr, if_true]
    rfl
  · intro l g lc gc hl hg hr
    simp only [ConfigOpts.merge, hl, hg, hr, if_true]
    rfl

/-- C1 witness: the monotonicity theorem applied to the concrete pair
`{release:true}` / `{release:false}`. -/
theorem merge_sticky_monotonic_witness :
    (ConfigOpts.merge exBuildTrue exBuildFalse).build.map ConfigOptsBuild.release
      = some true :=
  merge_sticky_monotonic.1 exBuildTrue exBuildFalse
    { ConfigOptsBuild.default with release := true } ConfigOptsBuild.default
    rfl rfl rfl

/-- C3: the all-sections-absent `ConfigOpts` is a two-sided identity of
`merge`. -/
theorem merge_empty_identity (x : ConfigOpts) :
    ConfigOpts.merge x ConfigOpts.default = x ∧
    ConfigOpts.merge ConfigOpts.default x = x := by
  obtain ⟨b, w, s, c, p, cp⟩ := x
  constructor <;>
    (cases b <;> cases w <;> cases s <;> cases c <;> cases p <;> cases cp <;> rfl)

/-- C3 witness: the identity laws at a concrete layer. -/
theorem merge_empty_identity_witness :
    ConfigOpts.merge exBuildTrue ConfigOpts.default = exBuildTrue ∧
    ConfigOpts.merge ConfigOpts.default exBuildTrue = exBuildTrue :=
  merge_empty_identity exBuildTrue

/-- C4: list-valued sections (`proxy`, `compression`) merge by
whole-section replacement: with both lists present the merged list is the
greater layer's list exactly; in particular
`merge({proxy:[A]}, {proxy:[B]})` yields `[B]`. -/
theorem merge_list_sections_replace :
    (∀ (l g : ConfigOpts) (lp gp : List ConfigOptsProxy),
        l.proxy = some lp → g.proxy = some gp →
        (ConfigOpts.merge l g).proxy = some gp) ∧
    (∀ (l g : ConfigOpts) (lc gc : List ConfigOptsCompression),
        l.compression = some lc → g.compression = some gc →
        (ConfigOpts.merge l g).compression = some gc) ∧
    (ConfigOpts.merge exProxyA exProxyB).proxy = some [proxyB] := by
  refine ⟨?_, ?_, by decide⟩
  · intro l g lp gp hl hg
    simp only [ConfigOpts.merge, hl, hg]
  · intro l g lc gc hl hg
    simp only [ConfigOpts.merge, hl, hg]

/-- C4 witness: whole-list replacement at the concrete pair
`proxy:[A]` / `proxy:[B]`. -/
theorem merge_list_sections_replace_witness :
    (ConfigOpts.merge exProxyA exProxyB).proxy = some [proxyB] :=
  merge_list_sections_replace.1 exProxyA exProxyB [proxyA] [proxyB] rfl rfl

/-- C10: `merge` is idempotent: merging any `ConfigOpts` with itself
changes nothing. -/
theorem merge_idempotent (x : ConfigOpts) : ConfigOpts.merge x x = x := by
  obtain ⟨b, w, s, c, p, cp⟩ := x
  cases b <;> cases w <;> cases s <;> cases c <;> cases p <;> cases cp <;>
    simp [ConfigOpts.merge, optOr_self, sticky_if_self]

/-- C10 witness: self-merge at a concrete layer. -/
theorem merge_idempotent_witness :
    ConfigOpts.merge exProxyA exProxyA = exProxyA :=
  merge_idempotent exProxyA

/-! ## Claims about the file layer -/

/-- A filesystem with no files at all. -/
def fsEmpty : FS :=
  { pathExists := fun _ => false, canonicalize := fun _ => none,
    readParse := fun _ => .error ConfigError.fileRead }

/-- An explicitly supplied, absolute config file path. -/
def explicitMissingPath : PathBuf := ⟨true, ["project", "Missing.toml"]⟩

/-- C2 counterexample: with an explicitly supplied path that does not exist,
`from_file` does NOT fail with `FileReadError` — it succeeds with the
all-default config (the existence check at models.rs line 228 precedes any
read and does not distinguish explicit from defaulted paths). -/
theorem from_file_missing_explicit_counterexample :
    ConfigOpts.from_file fsEmpty (some explicitMissingPath) = .ok ConfigOpts.default ∧
    ConfigOpts.from_file fsEmpty (some explicitMissingPath) ≠ .error ConfigError.fileRead := by
  refine ⟨rfl, ?_⟩
  intro h
  rw [show ConfigOpts.from_file fsEmpty (some explicitMissingPath)
        = .ok ConfigOpts.default from rfl] at h
  exact Except.noConfusion h

/-- C2 amended: if an explicitly supplied config file path does not exist,
the resolution call succeeds immediately with the all-default (empty)
configuration — exactly as for a missing default-location file; no error of
any kind is produced. -/
theorem from_file_missing_explicit_returns_default (fs : FS) (p : PathBuf)
    (h : fs.pathExists p = false) :
    ConfigOpts.from_file fs (some p) = .ok ConfigOpts.default := by
  simp [ConfigOpts.from_file, h]

/-- C2 witness: the amended claim at the concrete empty filesystem. -/
theorem from_file_missing_explicit_returns_default_witness :
    fsEmpty.pathExists explicitMissingPath = false ∧
    ConfigOpts.from_file fsEmpty (some explicitMissingPath) = .ok ConfigOpts.default :=
  ⟨rfl, from_file_missing_explicit_returns_default fsEmpty explicitMissingPath rfl⟩

/-- The config the environment layer yields when no variable is set:
all four sub-configs present and all-default. -/
def envAllDefault : ConfigOpts :=
  { build := some ConfigOptsBuild.default, watch := some ConfigOptsWatch.default,
    serve := some ConfigOptsServe.default, clean := some ConfigOptsClean.default,
    proxy := none, compression := none }

/-- C6: when no file exists at the default `Trunk.toml` location, the file
layer returns the all-default (empty) config and succeeds, and the combined
file-and-env resolution succeeds whenever the environment layer does. -/
theorem from_file_default_location_missing_ok (fs : FS) (e : Env)
    (h : fs.pathExists trunkToml = false) :
    ConfigOpts.from_file fs none = .ok ConfigOpts.default ∧
    (∀ env_cfg, ConfigOpts.from_env e = .ok env_cfg →
      ConfigOpts.file_and_env_layers fs e none =
        .ok (ConfigOpts.merge ConfigOpts.default env_cfg)) := by
  have hf : ConfigOpts.from_file fs none = .ok ConfigOpts.default := by
    simp [ConfigOpts.from_file, h]
  refine ⟨hf, ?_⟩
  intro env_cfg he
  simp [ConfigOpts.file_and_env_layers, hf, he, Bind.bind, Except.bind,
    Pure.pure, Except.pure]

/-- C6 witness: the empty filesystem together with the empty environment. -/
theorem from_file_default_location_missing_ok_witness :
    fsEmpty.pathExists trunkToml = false ∧
    ConfigOpts.from_file fsEmpty none = .ok ConfigOpts.default ∧
    ConfigOpts.file_and_env_layers fsEmpty Env.empty none =
      .ok (ConfigOpts.merge ConfigOpts.default envAllDefault) :=
  ⟨rfl, (from_file_default_location_missing_ok fsEmpty Env.empty rfl).1,
   (from_file_default_location_missing_ok fsEmpty Env.empty rfl).2 envAllDefault rfl⟩

/-- The spec's example config file location `/project/sub/Trunk.toml`. -/
def exTrunkPath : PathBuf := ⟨true, ["project", "sub", "Trunk.toml"]⟩

/-- The spec's example parsed file content: `[build] dist = "out"`. -/
def cfgDistOut : ConfigOpts :=
  { ConfigOpts.default with
    build := some { ConfigOptsBuild.default with dist := some ⟨false, ["out"]⟩ } }

/-- A filesystem holding the spec's example file everywhere. -/
def fsDistOut : FS :=
  { pathExists := fun _ => true, canonicalize := fun p => some p,
    readParse := fun _ => .ok cfgDistOut }

/-- C5: for a successfully parsed config file at an absolute path with parent
directory `par`, `from_file` returns exactly the parse result with its paths
normalized (normalization happens inside file loading, before any merge),
and the normalization rewrites each present relative path field
(`build.target`, `build.dist`, `watch.ignore` entries, `clean.dist`) as
`par.join(path)`, leaves absolute and absent path fields untouched, and
changes no other field. -/
theorem from_file_normalizes_paths (fs : FS) (p : PathBuf) (cfg : ConfigOpts)
    (par : PathBuf) (habs : p.absolute = true) (hex : fs.pathExists p = true)
    (hread : fs.readParse p = .ok cfg) (hpar : p.parent = some par) :
    ConfigOpts.from_file fs (some p) = .ok (normalizePaths par cfg) ∧
    (cfg.build = none → (normalizePaths par cfg).build = none) ∧
    (∀ b, cfg.build = some b → ∃ b2, (normalizePaths par cfg).build = some b2 ∧
      b2.release = b.release ∧ b2.public_url = b.public_url ∧
      (b.target = none → b2.target = none) ∧
      (∀ t, b.target = some t →
        (t.absolute = true → b2.target = some t) ∧
        (t.absolute = false → b2.target = some (par.join t))) ∧
      (b.dist = none → b2.dist = none) ∧
      (∀ d, b.dist = some d →
        (d.absolute = true → b2.dist = some d) ∧
        (d.absolute = false → b2.dist = some (par.join d)))) ∧
    (cfg.watch = none → (normalizePaths par cfg).watch = none) ∧
    (∀ w, cfg.watch = some w → ∃ w2, (normalizePaths par cfg).watch = some w2 ∧
      (w.ignore = none → w2.ignore = none) ∧
      (∀ ps, w.ignore = some ps →
        w2.ignore = some (ps.map (fun q => if q.absolute then q else par.join q)))) ∧
    (cfg.clean = none → (normalizePaths par cfg).clean = none) ∧
    (∀ c, cfg.clean = some c → ∃ c2, (normalizePaths par cfg).clean = some c2 ∧
      c2.cargo = c.cargo ∧
      (c.dist = none → c2.dist = none) ∧
      (∀ d, c.dist = some d →
        (d.absolute = true → c2.dist = some d) ∧
        (d.absolute = false → c2.dist = some (par.join d)))) ∧
    (normalizePaths par cfg).serve = cfg.serve ∧
    (normalizePaths par cfg).proxy = cfg.proxy ∧
    (normalizePaths par cfg).compression = cfg.compression := by
  refine ⟨?_, ?_, ?_, ?_, ?_, ?_, ?_, rfl, rfl, rfl⟩
  · simp [ConfigOpts.from_file, hex, habs, hread, hpar, Bind.bind, Except.bind,
      Pure.pure, Except.pure]
  · intro hb; simp [normalizePaths, hb]
  · intro b hb
    refine ⟨{ target := b.target.map (fun t => if t.absolute then t else par.join t),
              release := b.release,
              dist := b.dist.map (fun d => if d.absolute then d else par.join d),
              public_url := b.public_url },
            by simp [normalizePaths, hb], rfl, rfl, ?_, ?_, ?_, ?_⟩
    · intro ht; simp [ht]
    · intro t ht
      exact ⟨fun h1 => by simp [ht, h1], fun h1 => by simp [ht, h1]⟩
    · intro hd; simp [hd]
    · intro d hd
      exact ⟨fun h1 => by simp [hd, h1], fun h1 => by simp [hd, h1]⟩
  · intro hw; simp [normalizePaths, hw]
  · intro w hw
    refine ⟨{ ignore := w.ignore.map (List.map
                (fun q => if q.absolute then q else par.join q)) },
            by simp [normalizePaths, hw], ?_, ?_⟩
    · intro hi; simp [hi]
    · intro ps hps; simp [hps]
  · intro hc; simp [normalizePaths, hc]
  · intro c hc
    refine ⟨{ dist := c.dist.map (fun d => if d.absolute then d else par.join d),
              cargo := c.cargo },
            by simp [normalizePaths, hc], rfl, ?_, ?_⟩
    · intro hd; simp [hd]
    · intro d hd
      exact ⟨fun h1 => by simp [hd, h1], fun h1 => by simp [hd, h1]⟩

/-- C5 witness: the spec's example — a file at `/project/sub/Trunk.toml`
containing `dist = "out"` resolves `dist` to `/project/sub/out`. -/
theorem from_file_normalizes_paths_witness :
    ConfigOpts.from_file fsDistOut (some exTrunkPath) =
      .ok (normalizePaths ⟨true, ["project", "sub"]⟩ cfgDistOut) ∧
    normalizePaths ⟨true, ["project", "sub"]⟩ cfgDistOut =
      { ConfigOpts.default with
        build := some { ConfigOptsBuild.default with
                        dist := some ⟨true, ["project", "sub", "out"]⟩ } } :=
  ⟨(from_file_normalizes_paths fsDistOut exTrunkPath cfgDistOut
      ⟨true, ["project", "sub"]⟩ rfl rfl rfl rfl).1, by decide⟩

/-! ## Claims about the environment layer and the full resolution chain -/

/-- C9: whenever the environment layer succeeds (every recognized variable
coerces), the resulting config has all four sub-config sections present and
no proxy or compression section. -/
theorem from_env_sections_shape (e : Env) (cfg : ConfigOpts)
    (h : ConfigOpts.from_env e = .ok cfg) :
    cfg.build.isSome = true ∧ cfg.watch.isSome = true ∧
    cfg.serve.isSome = true ∧ cfg.clean.isSome = true ∧
    cfg.proxy = none ∧ cfg.compression = none := by
  unfold ConfigOpts.from_env at h
  obtain ⟨v1, h1, h⟩ := except_bind_ok h
  obtain ⟨v2, h2, h⟩ := except_bind_ok h
  obtain ⟨v3, h3, h⟩ := except_bind_ok h
  obtain ⟨v4, h4, h⟩ := except_bind_ok h
  obtain ⟨v5, h5, h⟩ := except_bind_ok h
  obtain ⟨v6, h6, h⟩ := except_bind_ok h
  obtain ⟨v7, h7, h⟩ := except_bind_ok h
  obtain ⟨v8, h8, h⟩ := except_bind_ok h
  obtain ⟨v9, h9, h⟩ := except_bind_ok h
  obtain ⟨v10, h10, h⟩ := except_bind_ok h
  obtain ⟨v11, h11, h⟩ := except_bind_ok h
  simp only [Pure.pure, Except.pure, Except.ok.injEq] at h
  subst h
  simp

/-- C9 witness: the empty environment coerces and exhibits the shape. -/
theorem from_env_sections_shape_witness :
    ConfigOpts.from_env Env.empty = .ok envAllDefault ∧
    (envAllDefault.build.isSome = true ∧ envAllDefault.watch.isSome = true ∧
     envAllDefault.serve.isSome = true ∧ envAllDefault.clean.isSome = true ∧
     envAllDefault.proxy = none ∧ envAllDefault.compression = none) :=
  ⟨rfl, from_env_sections_shape Env.empty envAllDefault rfl⟩

/-- The environment `TRUNK_BUILD_RELEASE=true` and nothing else. -/
def envBuildReleaseTrue : Env := { Env.empty with build_release := some "true" }

/-- C7: end-to-end sticky escalation through the three-layer chain: file
layer with `build.release = false`, environment layer with
`TRUNK_BUILD_RELEASE=true`, CLI build layer with the `--release` flag not
passed (`release = false`): the extracted build options have
`release = true` (and otherwise carry the file layer's scalar fields, as
neither env nor CLI set them). -/
theorem rtc_build_sticky_release (fs : FS) (path0 : Option PathBuf)
    (fileCfg : ConfigOpts) (fb : ConfigOptsBuild)
    (hfile : ConfigOpts.from_file fs path0 = .ok fileCfg)
    (hb : fileCfg.build = some fb) (hrel : fb.release = false) :
    ConfigOpts.rtc_build_opts ConfigOptsBuild.default fs envBuildReleaseTrue path0
      = .ok { target := fb.target, release := true, dist := fb.dist,
              public_url := fb.public_url } := by
  have henv : ConfigOpts.from_env envBuildReleaseTrue =
      .ok { envAllDefault with
            build := some { ConfigOptsBuild.default with release := true } } := rfl
  have hcli : (ConfigOpts.cli_opts_layer_build ConfigOptsBuild.default
      (ConfigOpts.merge fileCfg
        { envAllDefault with
          build := some { ConfigOptsBuild.default with release := true } })).build
      = some { target := fb.target, release := true, dist := fb.dist,
               public_url := fb.public_url } := by
    simp [ConfigOpts.cli_opts_layer_build, ConfigOpts.merge, hb, hrel,
      envAllDefault, ConfigOptsBuild.default, optOr]
  simp only [ConfigOpts.rtc_build_opts, ConfigOpts.file_and_env_layers, hfile,
    henv, except_ok_bind, except_pure_bind]
  rw [hcli]
  rfl

/-- A filesystem whose config file parses to `[build] release = false`. -/
def fsRelFalse : FS :=
  { pathExists := fun _ => true, canonicalize := fun p => some p,
    readParse := fun _ => .ok exBuildFalse }

/-- C7 witness: the chain at a concrete filesystem and explicit path. -/
theorem rtc_build_sticky_release_witness :
    ConfigOpts.rtc_build_opts ConfigOptsBuild.default fsRelFalse envBuildReleaseTrue
        (some exTrunkPath)
      = .ok { target := none, release := true, dist := none, public_url := none } :=
  rtc_build_sticky_release fsRelFalse (some exTrunkPath) exBuildFalse
    ConfigOptsBuild.default rfl rfl rfl

/-! ## Claims about compression-section parsing -/

/-- C8: a compression entry lacking its required `algorithm` tag (for
example `{ ratio = 0.8 }`) fails to parse with a `ParseError`, and an entry
is accepted exactly when its `algorithm` tag is present and one of
`"gzip"`, `"brotli"`, `"zstd"`. -/
theorem compression_requires_algorithm :
    parseCompressionSection [⟨none, none, none, none, none, none, some (4/5 : ℚ)⟩]
      = .error ConfigError.parse ∧
    parseCompression ⟨none, none, none, none, none, none, some (4/5 : ℚ)⟩
      = .error ConfigError.parse ∧
    (∀ r : RawCompression, (∃ c, parseCompression r = .ok c) ↔
      (∃ s, r.algorithm = some s ∧ (s = "gzip" ∨ s = "brotli" ∨ s = "zstd"))) := by
  refine ⟨rfl, rfl, ?_⟩
  intro r
  obtain ⟨alg0, o, t, i, ex, th, ra⟩ := r
  cases alg0 with
  | none => simp [parseCompression]
  | some s =>
      by_cases h1 : s = "gzip"
      · simp [parseCompression, Compressor.deserialize, h1]
      · by_cases h2 : s = "brotli"
        · simp [parseCompression, Compressor.deserialize, h1, h2]
        · by_cases h3 : s = "zstd"
          · simp [parseCompression, Compressor.deserialize, h1, h2, h3]
          · simp [parseCompression, Compressor.deserialize, h1, h2, h3]

/-- C8 witness: a well-formed `gzip` entry is accepted. -/
theorem compression_requires_algorithm_witness :
    ∃ c, parseCompression ⟨some "gzip", none, none, none, none, none, none⟩ = .ok c :=
  (compression_requires_algorithm.2.2
      ⟨some "gzip", none, none, none, none, none, none⟩).mpr
    ⟨"gzip", rfl, Or.inl rfl⟩

end Trunk
